import Mathlib

/-!
Verification development for the proctored-interview backend
(`server/generatequestion.py` and `server/main.py`).

The Python modules are shallowly embedded as pure Lean functions:
* the global dictionaries (`interview_sessions`, `test_data_storage`,
  `session_data`) become values of type `String → Option _` that are
  threaded explicitly;
* calls to the external model (OpenAI chat), `datetime.now()`, the JSON
  parser `json.loads`, and email delivery are nondeterministic inputs, so
  each is passed in as an explicit oracle argument;
* Python string literals are reproduced up to whitespace normalisation
  (the exact prompt wording is opaque to every property proved here);
* Python `int` question counts are modelled as `Nat` (the data model fixes
  them as positive integers) and timestamps as opaque strings.
-/

/-- A chat message as stored in `chat_history` (`{"role": ..., "content": ...}`). -/
structure Msg where
  role : String
  content : String
deriving Repr, DecidableEq, Inhabited

/-- A minimal JSON value type, the codomain of the modelled `json.loads`. -/
inductive Json where
  | null : Json
  | bool : Bool → Json
  | num : Int → Json
  | str : String → Json
  | arr : List Json → Json
  | obj : List (String × Json) → Json
deriving Inhabited

/-- The test configuration built by `create_test` in `main.py` and consumed by
`generatequestion.py` (`config` dict). Fields read with `data.get(...)` that may
be absent are `Option`s; `duration`/`num_questions` go through `int(...)`. -/
structure Config where
  token : String
  candidate_name : Option String
  email : Option String
  phone : Option String
  experience_level : Option String
  role_subject : Option String
  difficulty : Option String
  duration : Nat
  num_questions : Nat
  created_at : String
  status : String
deriving Repr, DecidableEq, Inhabited

/-- Python prints `None` for a missing value inside an f-string. -/
def pyStr (o : Option String) : String :=
  match o with
  | some s => s
  | none => "None"

/-- `build_system_prompt(config)`: the system message opening every transcript.
The literal prompt text is abbreviated (it is semantically opaque here); the
interpolated configuration fields are exactly those of the source. -/
def build_system_prompt (config : Config) : Msg :=
  { role := "system"
    content :=
      "You are an AI interviewer conducting a structured technical interview at CapsiTech. " ++
      "You must ask EXACTLY " ++ Nat.repr config.num_questions ++
      " technical questions - no more, no less. " ++
      "Candidate experience level: " ++ pyStr config.experience_level ++
      ". Total questions to ask: " ++ Nat.repr config.num_questions ++
      ". Difficulty level: " ++ pyStr config.difficulty ++
      ". Role: " ++ pyStr config.role_subject ++ "." }

/-- One interview session record (the value stored in `interview_sessions`).
`final_summary` and `completed_at` are keys added later by
`generate_final_summary`, hence `Option`s initialised to `none`. -/
structure InterviewSession where
  config : Config
  system_prompt : Msg
  chat_history : List Msg
  actual_questions_asked : Nat
  actual_questions : List String
  answers : List String
  ratings : List String
  is_complete : Bool
  current_state : String
  started_at : String
  completed_at : Option String
  final_summary : Option Json
deriving Inhabited

/-- The in-memory dictionary `interview_sessions`. -/
abbrev SessionMap := String → Option InterviewSession

/-- Dictionary store `d[k] = v`. -/
def mapSet {α : Type} (m : String → Option α) (k : String) (v : α) :
    String → Option α :=
  fun t => if t = k then some v else m t

/-- Dictionary delete `del d[k]`. -/
def mapDel {α : Type} (m : String → Option α) (k : String) :
    String → Option α :=
  fun t => if t = k then none else m t

/-- `initialize_interview_session`: the fresh session dict it stores. -/
def initialize_interview_session (config : Config) (now : String) :
    InterviewSession :=
  { config := config
    system_prompt := build_system_prompt config
    chat_history := [build_system_prompt config]
    actual_questions_asked := 0
    actual_questions := []
    answers := []
    ratings := []
    is_complete := false
    current_state := "greeting"
    started_at := now
    completed_at := none
    final_summary := none }

/-- `get_interview_session(token)`. -/
def get_interview_session (sessions : SessionMap) (token : String) :
    Option InterviewSession :=
  sessions token

/-- Case-insensitive literal-pattern match at the head of a char list; returns
the remainder on success (`re` pattern pieces are matched with `IGNORECASE`). -/
def stripPrefixCI : List Char → List Char → Option (List Char)
  | [], cs => some cs
  | _ :: _, [] => none
  | p :: ps, c :: cs => if c.toLower = p.toLower then stripPrefixCI ps cs else none

/-- Try to match the question marker at the current position.
`flexWS = true` models the pattern `Question\s*<n>:` used in
`start_structured_interview`; `flexWS = false` models the literal
`Question <n>:` (single space) used in `process_answer_and_get_next`. -/
def matchQuestionAt (flexWS : Bool) (n : Nat) (cs : List Char) :
    Option (List Char) :=
  match stripPrefixCI (String.toList "question") cs with
  | none => none
  | some rest =>
    let restSep : Option (List Char) :=
      if flexWS then some (rest.dropWhile Char.isWhitespace)
      else
        match rest with
        | ' ' :: t => some t
        | _ => none
    match restSep with
    | none => none
    | some r2 =>
      match stripPrefixCI (Nat.repr n).toList r2 with
      | none => none
      | some r3 =>
        match r3 with
        | ':' :: tail => some tail
        | _ => none

/-- Leftmost occurrence of the question marker (`re.search` semantics); returns
the characters following the marker. -/
def findQuestionTail (flexWS : Bool) (n : Nat) : List Char → Option (List Char)
  | [] => none
  | c :: cs =>
    match matchQuestionAt flexWS n (c :: cs) with
    | some tail => some tail
    | none => findQuestionTail flexWS n cs

/-- Drop leading whitespace from a character list. -/
def dropLeadingWS : List Char → List Char
  | [] => []
  | c :: cs => if c.isWhitespace then dropLeadingWS cs else c :: cs

/-- Python `str.strip()` (no arguments): remove leading and trailing
whitespace. Implemented structurally on the character list so that it
evaluates by kernel reduction. -/
def pyStrip (s : String) : String :=
  String.mk ((dropLeadingWS (dropLeadingWS s.toList).reverse).reverse)

/-- The question-extraction heuristic shared by `start_structured_interview`
and `process_answer_and_get_next`: search for `Question <n>:`, capture lazily
up to the next newline or end of string (`(.*?)(?:\n|$)` with `DOTALL`), trim;
if the marker is absent, fall back to the whole reply. -/
def extract_question (flexWS : Bool) (n : Nat) (ai_response : String) : String :=
  match findQuestionTail flexWS n ai_response.toList with
  | some tail => pyStrip (String.mk (tail.takeWhile fun c => c ≠ '\n'))
  | none => ai_response

/-- The initial user instruction built inside `start_structured_interview`
(text abbreviated; interpolations as in the source). -/
def initial_prompt_text (config : Config) : String :=
  "The candidate name is " ++ pyStr config.candidate_name ++
  " and they are applying for a " ++ pyStr config.role_subject ++
  " position. Please: 1. Give a brief welcoming greeting (1-2 sentences) " ++
  "2. Immediately ask Question 1 - a " ++ pyStr config.difficulty ++
  " level technical question about " ++ pyStr config.role_subject ++
  ". Remember: do not number the question in the final message to the candidate."

/-- `start_structured_interview(token, config)`. The model reply is the oracle
`ai_reply` (the code then strips it); `now` is the oracle for `datetime.now()`.
Returns the updated `interview_sessions` dictionary and the returned text. -/
def start_structured_interview (sessions : SessionMap) (token : String)
    (config : Config) (now : String) (ai_reply : String) :
    SessionMap × String :=
  let session := initialize_interview_session config now
  let initial_prompt := initial_prompt_text config
  let ai_response := (pyStrip ai_reply)
  let actual_question := extract_question true 1 ai_response
  let session :=
    { session with
      actual_questions := session.actual_questions ++ [actual_question]
      actual_questions_asked := 1
      current_state := "questioning"
      chat_history := session.chat_history ++
        [{ role := "user", content := initial_prompt },
         { role := "assistant", content := ai_response }] }
  (mapSet sessions token session, ai_response)

/-- The instruction built inside `process_answer_and_get_next` (abbreviated;
interpolations as in the source). -/
def next_prompt_text (config : Config) (current_q_num next_q_num : Nat)
    (answer : String) : String :=
  "The candidate just answered Question " ++ Nat.repr current_q_num ++
  ". Their answer was: \"" ++ answer ++ "\". Please: " ++
  "1. Directly ask the next question (internally Question " ++
  Nat.repr next_q_num ++ ") 2. Adjust difficulty based on their answer " ++
  "quality 3. Do NOT provide feedback. Topic: " ++ pyStr config.role_subject ++
  ". Questions remaining: " ++ Nat.repr (config.num_questions - current_q_num)

/-- The instruction built inside `generate_final_summary` (abbreviated). -/
def summary_prompt_text (asked : Nat) (final_answer : String) : String :=
  "The interview is complete. The candidate answered all " ++ Nat.repr asked ++
  " questions. Their final answer was: \"" ++ final_answer ++
  "\". Please respond only in valid JSON format with the keys " ++
  "overall_feedback, strengths, areas_for_improvement, average_rating."

/-- The result dict of `process_answer_and_get_next` / `generate_final_summary`. -/
inductive SubmitResult where
  | error (msg : String)
  | next (response_text : String) (question_number : Nat)
      ( is_complete : Bool) (questions_remaining : Nat)
  | finished (response_text : String) (question_number : Nat)
      ( is_complete : Bool) (internal_summary : String)
deriving Repr, DecidableEq, Inhabited

/-- `generate_final_summary(token, final_answer)`. `ai_reply` is the chat
oracle, `json_loads` the oracle for Python `json.loads` (`none` models a
`JSONDecodeError`), `now` the completion timestamp. The `save_interview_log`
call is modelled separately (`save_interview_log` below) since it only writes
a file. -/
def generate_final_summary (sessions : SessionMap) (token : String)
    (final_answer : String) (ai_reply : String)
    (json_loads : String → Option Json) (now : String) :
    SessionMap × SubmitResult :=
  match sessions token with
  | none => (sessions, SubmitResult.error "Session not found")
  | some session =>
    let prompt := summary_prompt_text session.actual_questions_asked final_answer
    let messages := session.chat_history ++
      [{ role := "user", content := final_answer },
       { role := "system", content := prompt }]
    let summary := (pyStrip ai_reply)
    let summary_data :=
      match json_loads summary with
      | some v => v
      | none =>
        Json.obj
          [("overall_feedback", Json.str summary),
           ("strengths", Json.arr []),
           ("areas_for_improvement", Json.arr []),
           ("average_rating", Json.null)]
    let session :=
      { session with
        is_complete := true
        current_state := "complete"
        final_summary := some summary_data
        completed_at := some now }
    let _ := messages
    (mapSet sessions token session,
     SubmitResult.finished
       "Thank you for completing the interview. Your responses have been recorded"
       session.actual_questions_asked true summary)

/-- `process_answer_and_get_next(token, answer)`. Oracles as above. Note that
the instruction and the candidate answer are appended only to the local copy
`messages`; the stored `chat_history` receives only the assistant reply. -/
def process_answer_and_get_next (sessions : SessionMap) (token : String)
    (answer : String) (ai_reply : String)
    (json_loads : String → Option Json) (now : String) :
    SessionMap × SubmitResult :=
  match sessions token with
  | none => (sessions, SubmitResult.error "Session not found")
  | some session =>
    if session.is_complete then
      (sessions, SubmitResult.error "Interview already complete")
    else
      let config := session.config
      let max_questions := config.num_questions
      let current_q_num := session.actual_questions_asked
      let session := { session with answers := session.answers ++ [answer] }
      if current_q_num ≥ max_questions then
        generate_final_summary (mapSet sessions token session) token answer
          ai_reply json_loads now
      else
        let next_q_num := current_q_num + 1
        let session := { session with actual_questions_asked := next_q_num }
        let prompt := next_prompt_text config current_q_num next_q_num answer
        let messages := session.chat_history ++
          [{ role := "user", content := answer },
           { role := "system", content := prompt }]
        let ai_response := (pyStrip ai_reply)
        let actual_question := extract_question false next_q_num ai_response
        let session :=
          { session with
            actual_questions := session.actual_questions ++ [actual_question]
            chat_history := session.chat_history ++
              [{ role := "assistant", content := ai_response }] }
        let _ := messages
        (mapSet sessions token session,
         SubmitResult.next ai_response next_q_num false
           (max_questions - next_q_num))

/-- One element of the `interview` array in the saved log. -/
structure InterviewEntry where
  question_number : Nat
  question : String
  answer : Option String
  rating : Option String
deriving Repr, DecidableEq, Inhabited

/-- Builds entries for the given indices. `session["actual_questions"][i]` is an
unguarded subscript in the source, so an out-of-range index is `none`
(a Python `IndexError`); the `answer`/`rating` fields use the source's guarded
`xs[i] if i < len(xs) else None`. -/
def buildEntries (session : InterviewSession) :
    List Nat → Option (List InterviewEntry)
  | [] => some []
  | i :: is =>
    match session.actual_questions[i]? with
    | none => none
    | some q =>
      match buildEntries session is with
      | none => none
      | some rest =>
        some ({ question_number := i + 1
                question := q
                answer := session.answers[i]?
                rating := session.ratings[i]? } :: rest)

/-- The `interview` list comprehension of `save_interview_log`:
`for i in range(session["actual_questions_asked"])`. -/
def buildInterviewArray (session : InterviewSession) :
    Option (List InterviewEntry) :=
  buildEntries session (List.range session.actual_questions_asked)

/-- The `metadata` block of the saved log. -/
structure LogMetadata where
  token : String
  started_at : String
  completed_at : Option String
  duration_minutes : Option Nat
deriving Repr, DecidableEq, Inhabited

/-- The full JSON document written by `save_interview_log`. -/
structure LogData where
  metadata : LogMetadata
  candidate_name : Option String
  candidate_email : Option String
  candidate_role : Option String
  candidate_experience : Option String
  config_num_questions : Nat
  config_difficulty : Option String
  config_duration : Nat
  interview : List InterviewEntry
  summary : Json
  dir_name : String
deriving Inhabited

/-- `save_interview_log(token, session)` as the pure document it serialises
(the actual file write is I/O). `duration_of` is the oracle for the
`datetime.fromisoformat` subtraction. `none` models the function raising:
the source first computes
`config.get("candidate_name", "unknown").replace(" ", "_").lower()` — every
config stores the `candidate_name` key (possibly as `None`), so a `None`
value reaches `.replace` and raises `AttributeError` before the `interview`
array is built — and the unguarded questions subscript in the `interview`
comprehension raises `IndexError` when out of range. -/
def save_interview_log (token : String) (session : InterviewSession)
    (duration_of : String → String → Nat) : Option LogData :=
  let config := session.config
  match config.candidate_name with
  | none => none
  | some name =>
  let safe_name := (name.replace " " "_").toLower
  match buildInterviewArray session with
  | none => none
  | some interview =>
    some
      { metadata :=
          { token := token
            started_at := session.started_at
            completed_at := session.completed_at
            duration_minutes :=
              match session.completed_at with
              | some c => some (duration_of session.started_at c)
              | none => none }
        candidate_name := config.candidate_name
        candidate_email := config.email
        candidate_role := config.role_subject
        candidate_experience := config.experience_level
        config_num_questions := config.num_questions
        config_difficulty := config.difficulty
        config_duration := config.duration
        interview := interview
        summary :=
          session.final_summary.getD
            (Json.obj
              [("overall_feedback", Json.str ""),
               ("strengths", Json.arr []),
               ("areas_for_improvement", Json.arr []),
               ("average_rating", Json.null)])
        dir_name := safe_name }

/-- The result of `get_interview_progress`. -/
inductive ProgressResult where
  | error (msg : String)
  | progress (current_question : Nat) (total_questions : Nat)
      (questions_remaining : Nat) ( is_complete : Bool) (state : String)
deriving Repr, DecidableEq, Inhabited

/-- `get_interview_progress(token)`: a pure read. -/
def get_interview_progress (sessions : SessionMap) (token : String) :
    ProgressResult :=
  match sessions token with
  | none => ProgressResult.error "Session not found"
  | some session =>
    let max_questions := session.config.num_questions
    ProgressResult.progress session.actual_questions_asked max_questions
      (max_questions - session.actual_questions_asked)
      session.is_complete session.current_state

/-- `reset_interview(token)`: `if token in interview_sessions: del ...`. -/
def reset_interview (sessions : SessionMap) (token : String) : SessionMap :=
  match sessions token with
  | some _ => mapDel sessions token
  | none => sessions

/-! ### `main.py`: session-state tracker, violation log, token store, endpoints -/

/-- One per-token proctoring state (`session_data['states'][token]`). The
Python `stages` dict with keys 1,2,3 becomes three explicit fields. -/
structure SessionState where
  current_stage : Int
  stage1 : String
  stage2 : String
  stage3 : String
  terminated : Bool
  termination_reason : Option String
  terminated_at : Option String
  completed : Bool
deriving Repr, DecidableEq, Inhabited

/-- The dictionary `session_data['states']`. -/
abbrev StateMap := String → Option SessionState

/-- The fresh state literal inside `get_or_create_session_state`. -/
def fresh_session_state : SessionState :=
  { current_stage := 1
    stage1 := "incomplete"
    stage2 := "incomplete"
    stage3 := "incomplete"
    terminated := false
    termination_reason := none
    terminated_at := none
    completed := false }

/-- `get_or_create_session_state(token)`. -/
def get_or_create_session_state (states : StateMap) (token : String) :
    StateMap × SessionState :=
  match states token with
  | some st => (states, st)
  | none => (mapSet states token fresh_session_state, fresh_session_state)

/-- `state['stages'][stage] = status` (guarded by `stage in [1, 2, 3]`). -/
def setStageStatus (st : SessionState) (stage : Int) (status : String) :
    SessionState :=
  if stage = 1 then { st with stage1 := status }
  else if stage = 2 then { st with stage2 := status }
  else if stage = 3 then { st with stage3 := status }
  else st

/-- The body of the `update-stage` endpoint acting on one state. Note the
source sets `current_stage = stage + 1` (from the request's stage, not from
the state's current stage). -/
def update_stage (st : SessionState) (stage : Int) (status : String) :
    SessionState :=
  if stage = 1 ∨ stage = 2 ∨ stage = 3 then
    let st := setStageStatus st stage status
    if status = "complete" then
      if stage < 3 then { st with current_stage := stage + 1 }
      else { st with completed := true }
    else st
  else st

/-- The `update-stage` endpoint: get-or-create then mutate in place. -/
def update_stage_endpoint (states : StateMap) (token : String)
    (stage : Int) (status : String) : StateMap × SessionState :=
  let p := get_or_create_session_state states token
  let st := update_stage p.2 stage status
  (mapSet p.1 token st, st)

/-- The `terminate` endpoint body acting on the state map. -/
def terminate_test (states : StateMap) (token : String) (reason : String)
    (now : String) : StateMap :=
  let p := get_or_create_session_state states token
  mapSet p.1 token
    { p.2 with
      terminated := true
      termination_reason := some reason
      terminated_at := some now }

/-- One violation record. `type` comes from `data.get('type')` (may be
absent), `timestamp` from `data.get('timestamp', datetime.now()...)`,
`details` from `data.get('details', '')`. -/
structure Violation where
  type_ : Option String
  timestamp : String
  details : String
deriving Repr, DecidableEq, Inhabited

/-- The dictionary `session_data['violations']`; an absent key behaves as the
empty list (the source initialises `[]` on first insert and reads with a
`[]` default). -/
abbrev ViolationMap := String → List Violation

/-- The JSON body returned by the `violations` endpoint. -/
structure RecordResult where
  success : Bool
  violation_count : Nat
  max_reached : Bool
deriving Repr, DecidableEq, Inhabited

/-- `record_violation(token)`: append the record, count, and force-terminate
the session state once the count reaches 10 (no termination reason is set on
this path). -/
def record_violation (violations : ViolationMap) (states : StateMap)
    (token : String) (vtype : Option String) (timestamp : Option String)
    (details : Option String) (now : String) :
    ViolationMap × StateMap × RecordResult :=
  let violation : Violation :=
    { type_ := vtype
      timestamp := timestamp.getD now
      details := details.getD "" }
  let vs := violations token ++ [violation]
  let violations2 : ViolationMap := fun t => if t = token then vs else violations t
  let count := vs.length
  let states2 :=
    if count ≥ 10 then
      let p := get_or_create_session_state states token
      mapSet p.1 token { p.2 with terminated := true }
    else states
  (violations2, states2,
   { success := true, violation_count := count, max_reached := count ≥ 10 })

/-- The two backing stores of the Token Store: the in-memory cache
`test_data_storage` and the on-disk files `uploads/test_<token>.json`. -/
structure ServerStore where
  test_data_storage : String → Option Config
  uploads : String → Option Config

/-- `load_test_config(token)`: cache first, then disk (populating the cache),
else `None`. -/
def load_test_config (store : ServerStore) (token : String) :
    ServerStore × Option Config :=
  match store.test_data_storage token with
  | some c => (store, some c)
  | none =>
    match store.uploads token with
    | some c =>
      ({ store with
          test_data_storage := mapSet store.test_data_storage token c },
       some c)
    | none => (store, none)

/-- The request body of `POST /admin/create-test`. -/
structure CreateTestData where
  email : Option String
  name : Option String
  candidate_name : Option String
  phone : Option String
  experience_level : Option String
  role_subject : Option String
  difficulty : Option String
  duration : Option Nat
  numQuestions : Option Nat
deriving Repr, DecidableEq, Inhabited

/-- The JSON response (plus HTTP status) of `create-test`. -/
structure CreateTestResponse where
  status : Nat
  success : Option Bool
  token : String
  email_sent : Bool
  error : Option String
  test_config : Option Config
deriving Repr, DecidableEq, Inhabited

/-- `create_test()`. `token` is the oracle for `uuid.uuid4()`, `email_ok`
whether `send_test_email` succeeds (its exception text is `email_err`), `now`
the oracle for `datetime.now()`. On email failure the source returns 201
immediately: the config is never built, persisted, or cached, and no session
state is created. -/
def create_test (store : ServerStore) (states : StateMap)
    (data : CreateTestData) (token : String) (email_ok : Bool)
    (email_err : String) (now : String) :
    ServerStore × StateMap × CreateTestResponse :=
  if email_ok = false then
    (store, states,
     { status := 201
       success := none
       token := token
       email_sent := false
       error := some email_err
       test_config := none })
  else
    let config : Config :=
      { token := token
        candidate_name := data.candidate_name
        email := data.email
        phone := data.phone
        experience_level := data.experience_level
        role_subject := data.role_subject
        difficulty := data.difficulty
        duration := data.duration.getD 60
        num_questions := data.numQuestions.getD 5
        created_at := now
        status := "pending" }
    let store2 : ServerStore :=
      { store with
        uploads := mapSet store.uploads token config
        test_data_storage := mapSet store.test_data_storage token config }
    let states2 := (get_or_create_session_state states token).1
    (store2, states2,
     { status := 200
       success := some true
       token := token
       email_sent := true
       error := none
       test_config := some config })

/-- The response of `GET /test/<token>/validate/<stage>`. -/
inductive StageValidation where
  | invalid_token
  | redirect_terminated
  | redirect_feedback
  | redirect (target : Int)
  | allowed
deriving Repr, DecidableEq, Inhabited

/-- `validate_stage_access(token, stage)`. -/
def validate_stage_access (store : ServerStore) (states : StateMap)
    (token : String) (stage : Int) :
    ServerStore × StateMap × StageValidation :=
  let p := load_test_config store token
  match p.2 with
  | none => (p.1, states, StageValidation.invalid_token)
  | some _ =>
    let q := get_or_create_session_state states token
    let state := q.2
    if state.terminated then (p.1, q.1, StageValidation.redirect_terminated)
    else if state.completed then (p.1, q.1, StageValidation.redirect_feedback)
    else if stage < state.current_stage then
      (p.1, q.1, StageValidation.redirect state.current_stage)
    else if state.current_stage < stage then
      (p.1, q.1, StageValidation.redirect state.current_stage)
    else (p.1, q.1, StageValidation.allowed)

/-- The response of `POST /test/<token>/submit-text`. -/
inductive SubmitTextResponse where
  | not_started
  | no_answer
  | bad (msg : String)
  | ok (response_text : String) (question_number : Nat)
      ( is_complete : Bool) (questions_remaining : Nat)
deriving Repr, DecidableEq, Inhabited

/-- `submit_text_answer(token)`: session-existence check (404
"Interview not started") precedes the empty-text check (400
"No answer provided"); only then is the answer processed. -/
def submit_text_answer (sessions : SessionMap) (token : String)
    (text : Option String) (ai_reply : String)
    (json_loads : String → Option Json) (now : String) :
    SessionMap × SubmitTextResponse :=
  match get_interview_session sessions token with
  | none => (sessions, SubmitTextResponse.not_started)
  | some _ =>
    let answer := pyStrip (text.getD "")
    if answer = "" then (sessions, SubmitTextResponse.no_answer)
    else
      let p := process_answer_and_get_next sessions token answer ai_reply
        json_loads now
      match p.2 with
      | SubmitResult.error e => (p.1, SubmitTextResponse.bad e)
      | SubmitResult.next rt qn ic qr => (p.1, SubmitTextResponse.ok rt qn ic qr)
      | SubmitResult.finished rt qn ic _ =>
        (p.1, SubmitTextResponse.ok rt qn ic 0)

/-! ### Concrete fixtures used by witnesses and counterexamples -/

/-- A `json.loads` oracle that always fails to parse. -/
def jlNone : String → Option Json := fun _ => none

/-- A demo configuration with three questions. -/
def cfgA : Config :=
  { token := "t"
    candidate_name := some "Jane Doe"
    email := some "jane@example.com"
    phone := none
    experience_level := some "mid"
    role_subject := some "python"
    difficulty := some "easy"
    duration := 30
    num_questions := 3
    created_at := "2024-01-01T00:00:00"
    status := "pending" }

/-- A demo configuration with a single question. -/
def cfgB : Config := { cfgA with num_questions := 1 }

/-- Session map after `start` on an empty store (config `cfgA`). -/
def demoMapA1 : SessionMap :=
  (start_structured_interview (fun _ => none) "t" cfgA "2024-01-01T00:01:00"
    "Hello Jane! What is a closure?").1

/-- The session stored under `"t"` in `demoMapA1`. -/
def demoSessionA1 : InterviewSession :=
  match demoMapA1 "t" with
  | some s => s
  | none => default

/-- Session map after answering the first of three questions. -/
def demoMapA2 : SessionMap :=
  (process_answer_and_get_next demoMapA1 "t" "It captures variables."
    "What is a decorator?" jlNone "2024-01-01T00:02:00").1

/-- The session stored under `"t"` in `demoMapA2`. -/
def demoSessionA2 : InterviewSession :=
  match demoMapA2 "t" with
  | some s => s
  | none => default

/-- Session map after `start` with the one-question config `cfgB`. -/
def demoMapB1 : SessionMap :=
  (start_structured_interview (fun _ => none) "t" cfgB "2024-01-01T00:01:00"
    "Question 1: Define recursion.").1

/-- Session map after the terminal answer (the interview completes; the
summary reply is not valid JSON). -/
def demoMapB2 : SessionMap :=
  (process_answer_and_get_next demoMapB1 "t" "Recursion is self-reference."
    "not json at all" jlNone "2024-01-01T00:09:00").1

/-- The completed session stored under `"t"` in `demoMapB2`. -/
def demoSessionB2 : InterviewSession :=
  match demoMapB2 "t" with
  | some s => s
  | none => default

/-- A token store knowing `cfgA` under token `"t"` (memory cache only). -/
def demoStore : ServerStore :=
  { test_data_storage := fun t => if t = "t" then some cfgA else none
    uploads := fun _ => none }

/-- An empty token store. -/
def emptyStore : ServerStore :=
  { test_data_storage := fun _ => none
    uploads := fun _ => none }

/-- A demo `create-test` request body. -/
def demoData : CreateTestData :=
  { email := some "jane@example.com"
    name := some "Jane"
    candidate_name := some "Jane Doe"
    phone := none
    experience_level := some "mid"
    role_subject := some "python"
    difficulty := some "easy"
    duration := some 30
    numQuestions := some 3 }

/-- A violation map holding nine prior violations for token `"t"`. -/
def nineViolations : ViolationMap :=
  fun t =>
    if t = "t" then
      List.replicate 9
        { type_ := some "tab_switch", timestamp := "2024", details := "" }
    else []

/-! ### Invariants and reachability of the interview-session store -/

/-- The inductive invariant of a stored interview session: the question list
tracks the asked counter, the counter stays within the configured bound, and
the answers list is one short of the counter until completion. -/
def SessionInv (s : InterviewSession) : Prop :=
  s.actual_questions.length = s.actual_questions_asked ∧
  1 ≤ s.actual_questions_asked ∧
  s.actual_questions_asked ≤ s.config.num_questions ∧
  (s.is_complete = true → s.answers.length = s.actual_questions_asked) ∧
  (s.is_complete = false → s.answers.length + 1 = s.actual_questions_asked)

/-- Every stored session satisfies `SessionInv`. -/
def MapInv (m : SessionMap) : Prop :=
  ∀ token s, m token = some s → SessionInv s

/-- Session stores reachable through the interview operations, starting from
the empty dictionary. `start` carries the data-model constraint that the
configured question count is a positive integer; `progress` is a pure read
and does not change the store. -/
inductive Reachable : SessionMap → Prop
  | empty : Reachable (fun _ => none)
  | start (m : SessionMap) (token : String) (config : Config)
      (now reply : String) (hm : Reachable m)
      (hn : 1 ≤ config.num_questions) :
      Reachable (start_structured_interview m token config now reply).1
  | submit (m : SessionMap) (token answer reply : String)
      (jl : String → Option Json) (now : String) (hm : Reachable m) :
      Reachable (process_answer_and_get_next m token answer reply jl now).1
  | reset (m : SessionMap) (token : String) (hm : Reachable m) :
      Reachable (reset_interview m token)

/-! ### Dictionary lemmas -/

theorem mapSet_self {α : Type} (m : String → Option α) (k : String) (v : α) :
    mapSet m k v k = some v := by
  simp [mapSet]

theorem mapSet_of_ne {α : Type} (m : String → Option α) (k : String) (v : α)
    (t : String) (h : t ≠ k) : mapSet m k v t = m t := by
  simp [mapSet, h]

theorem mapSet_mapSet {α : Type} (m : String → Option α) (k : String)
    (v w : α) : mapSet (mapSet m k v) k w = mapSet m k w := by
  funext t
  by_cases h : t = k <;> simp [mapSet, h]

/-! ### Branch characterisations of the interview operations -/

theorem start_eq (sessions : SessionMap) (token : String) (config : Config)
    (now reply : String) :
    start_structured_interview sessions token config now reply =
      (mapSet sessions token
        { config := config
          system_prompt := build_system_prompt config
          chat_history :=
            [build_system_prompt config,
             { role := "user", content := initial_prompt_text config },
             { role := "assistant", content := (pyStrip reply) }]
          actual_questions_asked := 1
          actual_questions := [extract_question true 1 (pyStrip reply)]
          answers := []
          ratings := []
          is_complete := false
          current_state := "questioning"
          started_at := now
          completed_at := none
          final_summary := none },
       (pyStrip reply)) := rfl

theorem process_answer_no_session (sessions : SessionMap)
    (token answer ai_reply : String) (jl : String → Option Json)
    (now : String) (h : sessions token = none) :
    process_answer_and_get_next sessions token answer ai_reply jl now =
      (sessions, SubmitResult.error "Session not found") := by
  simp [process_answer_and_get_next, h]

theorem process_answer_already_complete (sessions : SessionMap)
    (token answer ai_reply : String) (jl : String → Option Json)
    (now : String) (s : InterviewSession) (h : sessions token = some s)
    (hc : s.is_complete = true) :
    process_answer_and_get_next sessions token answer ai_reply jl now =
      (sessions, SubmitResult.error "Interview already complete") := by
  simp [process_answer_and_get_next, h, hc]

theorem process_answer_next_eq (sessions : SessionMap)
    (token answer ai_reply : String) (jl : String → Option Json)
    (now : String) (s : InterviewSession) (h : sessions token = some s)
    (hc : s.is_complete = false)
    (hlt : s.actual_questions_asked < s.config.num_questions) :
    process_answer_and_get_next sessions token answer ai_reply jl now =
      (mapSet sessions token
        { s with
          answers := s.answers ++ [answer]
          actual_questions_asked := s.actual_questions_asked + 1
          actual_questions := s.actual_questions ++
            [extract_question false (s.actual_questions_asked + 1)
              (pyStrip ai_reply)]
          chat_history := s.chat_history ++
            [{ role := "assistant", content := (pyStrip ai_reply) }] },
       SubmitResult.next (pyStrip ai_reply) (s.actual_questions_asked + 1) false
         (s.config.num_questions - (s.actual_questions_asked + 1))) := by
  simp [process_answer_and_get_next, h, hc, Nat.not_le.mpr hlt]

theorem process_answer_finish_eq (sessions : SessionMap)
    (token answer ai_reply : String) (jl : String → Option Json)
    (now : String) (s : InterviewSession) (h : sessions token = some s)
    (hc : s.is_complete = false)
    (hge : s.config.num_questions ≤ s.actual_questions_asked) :
    process_answer_and_get_next sessions token answer ai_reply jl now =
      (mapSet sessions token
        { s with
          answers := s.answers ++ [answer]
          is_complete := true
          current_state := "complete"
          final_summary := some
            (match jl (pyStrip ai_reply) with
             | some v => v
             | none =>
               Json.obj
                 [("overall_feedback", Json.str (pyStrip ai_reply)),
                  ("strengths", Json.arr []),
                  ("areas_for_improvement", Json.arr []),
                  ("average_rating", Json.null)])
          completed_at := some now },
       SubmitResult.finished
         "Thank you for completing the interview. Your responses have been recorded"
         s.actual_questions_asked true (pyStrip ai_reply)) := by
  simp [process_answer_and_get_next, generate_final_summary, h, hc, hge,
    mapSet_self, mapSet_mapSet]


/-! ### The session-store invariant holds on every reachable store -/

theorem reachable_mapInv (m : SessionMap) (hm : Reachable m) : MapInv m := by
  induction hm with
  | empty => intro t s hs; simp at hs
  | start m token config now reply hm hn ih =>
    intro t s hs
    rw [start_eq] at hs
    dsimp only [mapSet] at hs
    by_cases h : t = token
    · rw [if_pos h] at hs
      injection hs with hs
      subst hs
      refine ⟨rfl, Nat.le_refl 1, hn, ?_, ?_⟩ <;> intro h2 <;> simp_all
    · rw [if_neg h] at hs
      exact ih t s hs
  | submit m token answer reply jl now hm ih =>
    intro t s hs
    cases hmt : m token with
    | none =>
      rw [process_answer_no_session _ _ _ _ _ _ hmt] at hs
      exact ih t s hs
    | some s0 =>
      obtain ⟨h1, h2, h3, h4, h5⟩ := ih token s0 hmt
      cases hcomp : s0.is_complete with
      | true =>
        rw [process_answer_already_complete _ _ _ _ _ _ _ hmt hcomp] at hs
        exact ih t s hs
      | false =>
        by_cases hlt : s0.actual_questions_asked < s0.config.num_questions
        · rw [process_answer_next_eq _ _ _ _ _ _ _ hmt hcomp hlt] at hs
          dsimp only [mapSet] at hs
          by_cases h : t = token
          · rw [if_pos h] at hs
            injection hs with hs
            subst hs
            have h5f := h5 hcomp
            refine ⟨?_, ?_, ?_, ?_, ?_⟩ <;> simp_all
            omega
          · rw [if_neg h] at hs
            exact ih t s hs
        · have hge : s0.config.num_questions ≤ s0.actual_questions_asked :=
            Nat.le_of_not_lt hlt
          rw [process_answer_finish_eq _ _ _ _ _ _ _ hmt hcomp hge] at hs
          dsimp only [mapSet] at hs
          by_cases h : t = token
          · rw [if_pos h] at hs
            injection hs with hs
            subst hs
            have h5f := h5 hcomp
            refine ⟨?_, ?_, ?_, ?_, ?_⟩ <;> simp_all
          · rw [if_neg h] at hs
            exact ih t s hs
  | reset m token hm ih =>
    intro t s hs
    unfold reset_interview at hs
    cases hmt : m token with
    | none => rw [hmt] at hs; exact ih t s hs
    | some s0 =>
      rw [hmt] at hs
      dsimp only [mapDel] at hs
      by_cases h : t = token
      · rw [if_pos h] at hs; exact absurd hs (by simp)
      · rw [if_neg h] at hs
        exact ih t s hs

/-! ### The `interview` array of the saved log -/

theorem buildEntries_total (s : InterviewSession) (is : List Nat)
    (h : ∀ i ∈ is, i < s.actual_questions.length) :
    ∃ l, buildEntries s is = some l ∧ l.length = is.length ∧
      ∀ (j i : Nat), is[j]? = some i →
        ∃ q, s.actual_questions[i]? = some q ∧
          l[j]? = some
            ({ question_number := i + 1
               question := q
               answer := s.answers[i]?
               rating := s.ratings[i]? } : InterviewEntry) := by
  induction is with
  | nil =>
    refine ⟨[], rfl, rfl, ?_⟩
    intro j i hj
    simp at hj
  | cons i tl ih =>
    have hi : i < s.actual_questions.length := h i (List.mem_cons_self i tl)
    have hq : s.actual_questions[i]? = some s.actual_questions[i] :=
      List.getElem?_eq_getElem hi
    obtain ⟨l, hl, hlen, hidx⟩ :=
      ih (fun j hj => h j (List.mem_cons_of_mem _ hj))
    refine ⟨{ question_number := i + 1
              question := s.actual_questions[i]
              answer := s.answers[i]?
              rating := s.ratings[i]? } :: l, ?_, by simp [hlen], ?_⟩
    · simp [buildEntries, hq, hl]
    · intro j i2 hj
      cases j with
      | zero =>
        simp at hj
        subst hj
        exact ⟨s.actual_questions[i], hq, by simp⟩
      | succ j =>
        simp only [List.getElem?_cons_succ] at hj
        obtain ⟨q, hq2, hl2⟩ := hidx j i2 hj
        exact ⟨q, hq2, by simpa using hl2⟩

/-! ### Claim theorems -/

/-- C4: `record(token, type, timestamp?, details?)` appends a violation record
(timestamp defaulting to call time) and returns the new total count for that
token; when the count reaches 10 the paired session state is force-terminated
(`terminated = true`) with no explicit reason recorded (the termination reason
stays as it was — the reason is implicit); at count 9 the session-state map is
untouched, so the session is not terminated. -/
theorem record_violation_spec (violations : ViolationMap) (states : StateMap)
    (token : String) (vtype timestamp details : Option String)
    (now : String) :
    (record_violation violations states token vtype timestamp details now).1
        token =
      violations token ++
        [{ type_ := vtype
           timestamp := timestamp.getD now
           details := details.getD "" }] ∧
    (record_violation violations states token vtype timestamp details
        now).2.2.violation_count = (violations token).length + 1 ∧
    (10 ≤ (violations token).length + 1 →
      ∃ st,
        (record_violation violations states token vtype timestamp details
            now).2.1 token = some st ∧
        st.terminated = true ∧
        st.termination_reason =
          ((states token).getD fresh_session_state).termination_reason) ∧
    ((violations token).length + 1 ≤ 9 →
      (record_violation violations states token vtype timestamp details
          now).2.1 = states) := by
  unfold record_violation
  refine ⟨by simp, by simp, ?_, ?_⟩
  · intro hcount
    dsimp only
    rw [if_pos (by simpa using hcount)]
    cases hst : states token with
    | none =>
      refine ⟨{ fresh_session_state with terminated := true }, ?_, rfl, ?_⟩
      · simp [get_or_create_session_state, hst, mapSet_self]
      · simp [hst]
    | some st0 =>
      refine ⟨{ st0 with terminated := true }, ?_, rfl, ?_⟩
      · simp [get_or_create_session_state, hst, mapSet_self]
      · simp [hst]
  · intro hcount
    dsimp only
    rw [if_neg (by simp; omega)]

/-- C6: when the model reply in `finish` is not valid JSON
(`json.loads` fails), `generate_final_summary` does not raise: it stores a
well-formed summary object whose `overall_feedback` is the raw reply text,
whose `strengths` and `areas_for_improvement` are empty lists and whose
`average_rating` is null, marks the session complete with a completion
timestamp, and returns the fixed thank-you payload carrying the raw text. -/
theorem final_summary_fallback_spec (sessions : SessionMap)
    (token final_answer ai_reply : String) (jl : String → Option Json)
    (now : String) (s : InterviewSession) (hs : sessions token = some s)
    (hjl : jl (pyStrip ai_reply) = none) :
    ∃ s2,
      (generate_final_summary sessions token final_answer ai_reply jl
          now).1 token = some s2 ∧
      s2.final_summary = some
        (Json.obj
          [("overall_feedback", Json.str (pyStrip ai_reply)),
           ("strengths", Json.arr []),
           ("areas_for_improvement", Json.arr []),
           ("average_rating", Json.null)]) ∧
      s2.is_complete = true ∧
      s2.current_state = "complete" ∧
      s2.completed_at = some now ∧
      (generate_final_summary sessions token final_answer ai_reply jl
          now).2 =
        SubmitResult.finished
          "Thank you for completing the interview. Your responses have been recorded"
          s.actual_questions_asked true (pyStrip ai_reply) := by
  refine ⟨{ s with
      is_complete := true
      current_state := "complete"
      completed_at := some now
      final_summary := some
        (Json.obj
          [("overall_feedback", Json.str (pyStrip ai_reply)),
           ("strengths", Json.arr []),
           ("areas_for_improvement", Json.arr []),
           ("average_rating", Json.null)]) }, ?_, rfl, rfl, rfl, rfl, ?_⟩ <;>
    simp [generate_final_summary, hs, hjl, mapSet_self]

/-- C10: in the `submit-text` endpoint the session-existence check precedes
the input check: with no interview session the endpoint returns 404
(`Interview not started`) even when the submitted text is empty, and with an
existing session an empty or whitespace-only text returns 400
(`No answer provided`), in both cases leaving the session store completely
unchanged. -/
theorem submit_text_endpoint_order_spec (sessions : SessionMap)
    (token : String) (text : Option String) (ai_reply : String)
    (jl : String → Option Json) (now : String) :
    (sessions token = none →
      submit_text_answer sessions token text ai_reply jl now =
        (sessions, SubmitTextResponse.not_started)) ∧
    (∀ s, sessions token = some s → pyStrip (text.getD "") = "" →
      submit_text_answer sessions token text ai_reply jl now =
        (sessions, SubmitTextResponse.no_answer)) := by
  constructor
  · intro h
    simp [submit_text_answer, get_interview_session, h]
  · intro s h hempty
    simp [submit_text_answer, get_interview_session, h, hempty]

/-- C7: for every token with a known configuration, `validate_stage_access`
redirects to the terminated view if the session is terminated; otherwise to
the feedback view if completed; otherwise to `current_stage` whenever the
requested stage differs from `current_stage` in either direction; and allows
access exactly when the requested stage equals `current_stage` — so a client
is never allowed at a stage ahead of `current_stage`. -/
theorem validate_stage_access_spec (store : ServerStore) (states : StateMap)
    (token : String) (stage : Int) (c : Config) (st : SessionState)
    (hcfg : (load_test_config store token).2 = some c)
    (hst : (get_or_create_session_state states token).2 = st) :
    (validate_stage_access store states token stage).2.2 =
      (if st.terminated then StageValidation.redirect_terminated
       else if st.completed then StageValidation.redirect_feedback
       else if stage ≠ st.current_stage then
         StageValidation.redirect st.current_stage
       else StageValidation.allowed) ∧
    ((validate_stage_access store states token stage).2.2 =
        StageValidation.allowed ↔
      st.terminated = false ∧ st.completed = false ∧
        stage = st.current_stage) := by
  have hmain :
      (validate_stage_access store states token stage).2.2 =
        (if st.terminated then StageValidation.redirect_terminated
         else if st.completed then StageValidation.redirect_feedback
         else if stage ≠ st.current_stage then
           StageValidation.redirect st.current_stage
         else StageValidation.allowed) := by
    unfold validate_stage_access
    dsimp only
    rw [hcfg]
    rw [hst]
    cases hterm : st.terminated with
    | true => simp
    | false =>
      cases hcomp : st.completed with
      | true => simp
      | false =>
        simp only [Bool.false_eq_true, if_false]
        by_cases hlt : stage < st.current_stage
        · rw [if_pos hlt, if_pos (by omega)]
        · rw [if_neg hlt]
          by_cases hgt : st.current_stage < stage
          · rw [if_pos hgt, if_pos (by omega)]
          · rw [if_neg hgt, if_neg (by omega)]
  refine ⟨hmain, ?_⟩
  rw [hmain]
  constructor
  · intro hallowed
    by_cases hterm : st.terminated <;>
      by_cases hcomp : st.completed <;>
        by_cases heq : stage = st.current_stage <;>
          simp_all
  · rintro ⟨hterm, hcomp, heq⟩
    simp [hterm, hcomp, heq]

/-- C1 (amended): for a session that exists, is not complete, and has
`actual_questions_asked < num_questions`, `process_answer_and_get_next`
appends the answer to the answers list, sets `actual_questions_asked` to
`asked + 1`, appends the extracted next-question text to the question list,
appends ONLY the model's reply to the stored transcript (the answer and the
instruction are placed in the transient message list sent to the model, not
in the stored `chat_history`), and returns the new prompt text, question
number `asked + 1`, `is_complete = false`, and
`questions_remaining = num_questions - (asked + 1)`. -/
theorem process_answer_next_question_spec (sessions : SessionMap)
    (token answer ai_reply : String) (jl : String → Option Json)
    (now : String) (s : InterviewSession) (hs : sessions token = some s)
    (hc : s.is_complete = false)
    (hlt : s.actual_questions_asked < s.config.num_questions) :
    ∃ s2,
      (process_answer_and_get_next sessions token answer ai_reply jl
          now).1 token = some s2 ∧
      s2.answers = s.answers ++ [answer] ∧
      s2.actual_questions_asked = s.actual_questions_asked + 1 ∧
      s2.actual_questions = s.actual_questions ++
        [extract_question false (s.actual_questions_asked + 1)
          (pyStrip ai_reply)] ∧
      s2.chat_history = s.chat_history ++
        [{ role := "assistant", content := (pyStrip ai_reply) }] ∧
      (process_answer_and_get_next sessions token answer ai_reply jl
          now).2 =
        SubmitResult.next (pyStrip ai_reply) (s.actual_questions_asked + 1) false
          (s.config.num_questions - (s.actual_questions_asked + 1)) := by
  rw [process_answer_next_eq sessions token answer ai_reply jl now s hs hc hlt]
  exact ⟨_, mapSet_self _ _ _, rfl, rfl, rfl, rfl, rfl⟩

/-- C1 as stated is false on the code: after one `submitAnswer` on a freshly
started three-question session the stored transcript has grown by exactly one
message — the model's reply — and not by the instruction plus the reply. -/
theorem submit_transcript_counterexample :
    demoSessionA1.chat_history.length = 3 ∧
    demoSessionA2.chat_history =
      demoSessionA1.chat_history ++
        [{ role := "assistant", content := "What is a decorator?" }] ∧
    demoSessionA2.chat_history.length = 4 := by
  refine ⟨rfl, ?_, rfl⟩
  rfl

/-- C2: at the failing input (the email send raises during
`POST /admin/create-test`) the endpoint answers 201 with `email_sent = false`
and the error detail, but — contrary to the claim — it returns before building
the configuration: nothing is persisted or cached, no session state is
created, and a subsequent `load_test_config(token)` yields `None`
(`NotFound`) instead of the configuration. -/
theorem create_test_email_failure_behavior :
    (create_test emptyStore (fun _ => none) demoData "tok-1" false
        "SMTP connection refused" "2024-01-01T00:00:00").2.2 =
      { status := 201
        success := none
        token := "tok-1"
        email_sent := false
        error := some "SMTP connection refused"
        test_config := none } ∧
    (load_test_config
        (create_test emptyStore (fun _ => none) demoData "tok-1" false
          "SMTP connection refused" "2024-01-01T00:00:00").1 "tok-1").2 =
      none ∧
    (create_test emptyStore (fun _ => none) demoData "tok-1" false
        "SMTP connection refused" "2024-01-01T00:00:00").2.1 "tok-1" =
      none := by
  exact ⟨rfl, rfl, rfl⟩

/-- C3 as stated is false on the code: `update_stage` sets
`current_stage := stage + 1` (from the request), so completing stage 2 on a
fresh session state advances `current_stage` from 1 to 3 (by two), and a
later completion of stage 1 moves it backwards from 3 to 2. -/
theorem update_stage_skip_counterexample :
    (get_or_create_session_state (fun _ => none) "t").2.current_stage = 1 ∧
    (update_stage_endpoint (fun _ => none) "t" 2 "complete").2.current_stage
      = 3 ∧
    (update_stage_endpoint
        (update_stage_endpoint (fun _ => none) "t" 2 "complete").1 "t" 1
        "complete").2.current_stage = 2 := by
  exact ⟨rfl, rfl, rfl⟩

/-- C3 (amended): `current_stage` changes only through stage-complete
updates, but `update_stage(stage, 'complete')` with `stage ∈ {1, 2}` sets
`current_stage := stage + 1` regardless of the previous value — out-of-order
completions can therefore move it forward by more than one or backwards —
while completing stage 3 sets `completed = true` and leaves `current_stage`
unchanged; a non-complete status or a stage outside {1,2,3} changes neither
`current_stage` nor `completed`. -/
theorem update_stage_characterization (st : SessionState) (stage : Int)
    (status : String) :
    ((stage = 1 ∨ stage = 2) → status = "complete" →
      (update_stage st stage status).current_stage = stage + 1 ∧
      (update_stage st stage status).completed = st.completed) ∧
    (stage = 3 → status = "complete" →
      (update_stage st stage status).completed = true ∧
      (update_stage st stage status).current_stage = st.current_stage) ∧
    (status ≠ "complete" →
      (update_stage st stage status).current_stage = st.current_stage ∧
      (update_stage st stage status).completed = st.completed) ∧
    (¬(stage = 1 ∨ stage = 2 ∨ stage = 3) →
      update_stage st stage status = st) := by
  refine ⟨?_, ?_, ?_, ?_⟩
  · rintro (rfl | rfl) rfl <;> simp [update_stage, setStageStatus]
  · rintro rfl rfl
    simp [update_stage, setStageStatus]
  · intro hne
    unfold update_stage
    by_cases hstage : stage = 1 ∨ stage = 2 ∨ stage = 3
    · rw [if_pos hstage, if_neg hne]
      rcases hstage with rfl | rfl | rfl <;> simp [setStageStatus]
    · rw [if_neg hstage]
      exact ⟨rfl, rfl⟩
  · intro hstage
    unfold update_stage
    rw [if_neg hstage]

/-- C9: `reset(token)` removes the interview session entirely, and a
subsequent `start` behaves exactly as a fresh start: the stored session (same
as starting on an empty store) has `actual_questions_asked = 1`, an empty
answers list, a question list holding only the newly extracted first
question, and a transcript holding only the new system prompt, the initial
instruction, and the model's reply — nothing survives from the prior run. -/
theorem reset_then_start_fresh (m : SessionMap) (token : String)
    (config : Config) (now ai_reply : String) :
    reset_interview m token token = none ∧
    (start_structured_interview (reset_interview m token) token config now
        ai_reply).1 token =
      (start_structured_interview (fun _ => none) token config now
        ai_reply).1 token ∧
    ∃ s,
      (start_structured_interview (reset_interview m token) token config now
          ai_reply).1 token = some s ∧
      s.actual_questions_asked = 1 ∧
      s.answers = [] ∧
      s.actual_questions = [extract_question true 1 (pyStrip ai_reply)] ∧
      s.chat_history =
        [build_system_prompt config,
         { role := "user", content := initial_prompt_text config },
         { role := "assistant", content := (pyStrip ai_reply) }] := by
  refine ⟨?_, ?_, ?_⟩
  · unfold reset_interview
    cases hmt : m token with
    | none => exact hmt
    | some s0 => simp [mapDel]
  · rw [start_eq, start_eq]
    dsimp only
    rw [mapSet_self, mapSet_self]
  · rw [start_eq]
    exact ⟨_, mapSet_self _ _ _, rfl, rfl, rfl, rfl⟩

/-- C5: every interview session reachable through `start`, `submitAnswer`
(`process_answer_and_get_next`, which also performs `finish`), `progress`
(a pure read) and `reset` satisfies
`len(answers) ≤ len(actual_questions) ≤ num_questions` and
`actual_questions_asked ≤ num_questions`; an accepted non-terminal answer
increases `actual_questions_asked` by exactly 1 (staying within the bound),
the terminal accepted answer leaves it unchanged and completes the session,
and once `is_complete = true` a further `submitAnswer` is rejected with an
error and without appending the answer (the store is returned unchanged). -/
theorem interview_session_invariants (m : SessionMap) (hm : Reachable m) :
    (∀ token s, m token = some s →
      s.answers.length ≤ s.actual_questions.length ∧
      s.actual_questions.length ≤ s.config.num_questions ∧
      s.actual_questions_asked ≤ s.config.num_questions) ∧
    (∀ (token answer ai_reply now : String) (jl : String → Option Json)
        (s : InterviewSession),
      m token = some s → s.is_complete = false →
      s.actual_questions_asked < s.config.num_questions →
      ∃ s2,
        (process_answer_and_get_next m token answer ai_reply jl now).1
            token = some s2 ∧
        s2.answers.length = s.answers.length + 1 ∧
        s2.actual_questions_asked = s.actual_questions_asked + 1 ∧
        s2.actual_questions_asked ≤ s.config.num_questions ∧
        s2.is_complete = false) ∧
    (∀ (token answer ai_reply now : String) (jl : String → Option Json)
        (s : InterviewSession),
      m token = some s → s.is_complete = false →
      s.config.num_questions ≤ s.actual_questions_asked →
      ∃ s2,
        (process_answer_and_get_next m token answer ai_reply jl now).1
            token = some s2 ∧
        s2.actual_questions_asked = s.actual_questions_asked ∧
        s2.is_complete = true) ∧
    (∀ (token answer ai_reply now : String) (jl : String → Option Json)
        (s : InterviewSession),
      m token = some s → s.is_complete = true →
      process_answer_and_get_next m token answer ai_reply jl now =
        (m, SubmitResult.error "Interview already complete")) := by
  have hinv := reachable_mapInv m hm
  refine ⟨?_, ?_, ?_, ?_⟩
  · intro token s hs
    obtain ⟨h1, h2, h3, h4, h5⟩ := hinv token s hs
    cases hcomp : s.is_complete with
    | true => have := h4 hcomp; omega
    | false => have := h5 hcomp; omega
  · intro token answer ai_reply now jl s hs hc hlt
    rw [process_answer_next_eq m token answer ai_reply jl now s hs hc hlt]
    refine ⟨_, mapSet_self _ _ _, ?_, rfl, ?_, hc⟩
    · simp
    · dsimp only
      omega
  · intro token answer ai_reply now jl s hs hc hge
    rw [process_answer_finish_eq m token answer ai_reply jl now s hs hc hge]
    exact ⟨_, mapSet_self _ _ _, rfl, rfl⟩
  · intro token answer ai_reply now jl s hs hc
    exact process_answer_already_complete m token answer ai_reply jl now s
      hs hc

/-- C8: for every session state reachable at `finish` (a completed session in
a reachable store), building the `interview` array never raises an
out-of-bounds error — even though the ratings list (and, in general, the
answers list) may be shorter than `actual_questions_asked` — and the array
has length exactly `actual_questions_asked`, where entry `i` carries
`question = actual_questions[i]` and takes the answer/rating from the
answers/ratings list when index `i` exists and an explicit null (`none`)
otherwise; whenever the log is written (the candidate name is a string — a
null candidate name raises in the directory-name computation, before the
array is built), the log contains exactly this array. -/
theorem interview_log_array_spec (m : SessionMap) (token : String)
    (s : InterviewSession) (duration_of : String → String → Nat)
    (hm : Reachable m) (hs : m token = some s)
    (_hc : s.is_complete = true) :
    ∃ l,
      buildInterviewArray s = some l ∧
      l.length = s.actual_questions_asked ∧
      (∀ (j : Nat), j < s.actual_questions_asked →
        ∃ q, s.actual_questions[j]? = some q ∧
          l[j]? = some
            ({ question_number := j + 1
               question := q
               answer := s.answers[j]?
               rating := s.ratings[j]? } : InterviewEntry)) ∧
      (∀ name, s.config.candidate_name = some name →
        ∃ log,
          save_interview_log token s duration_of = some log ∧
          log.interview = l) := by
  obtain ⟨h1, h2, h3, h4, h5⟩ := reachable_mapInv m hm token s hs
  obtain ⟨l, hl, hlen, hidx⟩ :=
    buildEntries_total s (List.range s.actual_questions_asked)
      (by intro i hi; rw [h1]; exact List.mem_range.mp hi)
  have hbuild : buildInterviewArray s = some l := hl
  refine ⟨l, hbuild, ?_, ?_, ?_⟩
  · simpa using hlen
  · intro j hj
    have hr : (List.range s.actual_questions_asked)[j]? = some j := by
      simp [List.getElem?_range, hj]
    obtain ⟨q, hq, hlj⟩ := hidx j j hr
    exact ⟨q, hq, hlj⟩
  · intro name hname
    unfold save_interview_log
    dsimp only
    rw [hname, hbuild]
    exact ⟨_, rfl, rfl⟩

/-! ### Witnesses: the claim theorems applied at concrete inputs -/

theorem process_answer_next_question_spec_witness :
    ∃ s2, demoMapA2 "t" = some s2 ∧
      s2.answers = ["It captures variables."] ∧
      s2.actual_questions_asked = 2 := by
  obtain ⟨s2, h1, h2, h3, _, _, _⟩ :=
    process_answer_next_question_spec demoMapA1 "t" "It captures variables."
      "What is a decorator?" jlNone "2024-01-01T00:02:00" demoSessionA1 rfl
      rfl (by decide)
  refine ⟨s2, h1, ?_, ?_⟩
  · rw [h2]; rfl
  · rw [h3]; rfl

theorem update_stage_characterization_witness :
    (update_stage fresh_session_state 2 "complete").current_stage = 2 + 1 ∧
    (update_stage fresh_session_state 2 "complete").completed =
      fresh_session_state.completed :=
  (update_stage_characterization fresh_session_state 2 "complete").1
    (Or.inr rfl) rfl

theorem record_violation_spec_witness :
    (record_violation nineViolations (fun _ => none) "t" (some "tab_switch")
        none none "2024-01-01T00:05:00").2.2.violation_count = 10 ∧
    ∃ st,
      (record_violation nineViolations (fun _ => none) "t"
          (some "tab_switch") none none "2024-01-01T00:05:00").2.1 "t" =
        some st ∧ st.terminated = true := by
  obtain ⟨h1, h2, h3, h4⟩ :=
    record_violation_spec nineViolations (fun _ => none) "t"
      (some "tab_switch") none none "2024-01-01T00:05:00"
  have h10 : 10 ≤ (nineViolations "t").length + 1 := by decide
  obtain ⟨st, hst, hterm, _⟩ := h3 h10
  refine ⟨?_, st, hst, hterm⟩
  rw [h2]; rfl

theorem interview_session_invariants_witness :
    demoSessionA1.answers.length ≤ demoSessionA1.actual_questions.length ∧
    demoSessionA1.actual_questions.length ≤
      demoSessionA1.config.num_questions ∧
    demoSessionA1.actual_questions_asked ≤
      demoSessionA1.config.num_questions := by
  have h := interview_session_invariants demoMapA1
    (Reachable.start (fun _ => none) "t" cfgA "2024-01-01T00:01:00"
      "Hello Jane! What is a closure?" Reachable.empty (by decide))
  exact h.1 "t" demoSessionA1 rfl

theorem final_summary_fallback_spec_witness :
    ∃ s2,
      (generate_final_summary demoMapA1 "t" "final answer" "not json" jlNone
          "2024-02-02T00:00:00").1 "t" = some s2 ∧
      s2.is_complete = true ∧ s2.completed_at = some "2024-02-02T00:00:00" := by
  obtain ⟨s2, h1, _h2, h3, _h4, h5, _h6⟩ :=
    final_summary_fallback_spec demoMapA1 "t" "final answer" "not json"
      jlNone "2024-02-02T00:00:00" demoSessionA1 rfl rfl
  exact ⟨s2, h1, h3, h5⟩

theorem validate_stage_access_spec_witness :
    (validate_stage_access demoStore (fun _ => none) "t" 1).2.2 =
      StageValidation.allowed ∧
    (validate_stage_access demoStore (fun _ => none) "t" 2).2.2 =
      StageValidation.redirect 1 := by
  constructor
  · rw [(validate_stage_access_spec demoStore (fun _ => none) "t" 1 cfgA
      fresh_session_state rfl rfl).1]
    decide
  · rw [(validate_stage_access_spec demoStore (fun _ => none) "t" 2 cfgA
      fresh_session_state rfl rfl).1]
    decide

theorem interview_log_array_spec_witness :
    ∃ l,
      buildInterviewArray demoSessionB2 = some l ∧
      l.length = demoSessionB2.actual_questions_asked ∧
      ∃ log,
        save_interview_log "t" demoSessionB2 (fun _ _ => 8) = some log ∧
        log.interview = l := by
  obtain ⟨l, h1, h2, _h3, h4⟩ :=
    interview_log_array_spec demoMapB2 "t" demoSessionB2 (fun _ _ => 8)
      (Reachable.submit demoMapB1 "t" "Recursion is self-reference."
        "not json at all" jlNone "2024-01-01T00:09:00"
        (Reachable.start (fun _ => none) "t" cfgB "2024-01-01T00:01:00"
          "Question 1: Define recursion." Reachable.empty (by decide)))
      rfl rfl
  obtain ⟨log, h5, h6⟩ := h4 "Jane Doe" rfl
  exact ⟨l, h1, h2, log, h5, h6⟩

theorem submit_text_endpoint_order_spec_witness :
    submit_text_answer (fun _ => none) "t" (some "") "r" jlNone "n" =
      ((fun _ => none : SessionMap), SubmitTextResponse.not_started) ∧
    submit_text_answer demoMapA1 "t" (some "   ") "r" jlNone "n" =
      (demoMapA1, SubmitTextResponse.no_answer) := by
  constructor
  · exact (submit_text_endpoint_order_spec (fun _ => none) "t" (some "") "r"
      jlNone "n").1 rfl
  · exact (submit_text_endpoint_order_spec demoMapA1 "t" (some "   ") "r"
      jlNone "n").2 demoSessionA1 rfl rfl
